import Mathlib

/-!
Verification of the job-submission / poll client in `src/web/app.py`
(`poll_job_status` and `generate_animation`).

The remote HTTP service is modelled as an oracle: one submission outcome
and, for each poll attempt index, one poll outcome.  Python exceptions are
modelled as values carrying their string representation together with a
flag telling whether they are instances of `requests.RequestException`
(the only class the code distinguishes).  Every network interaction and
every `time.sleep` call is recorded in an event trace, so that claims
about "no network call", "exactly N queries" and "sleep between attempts"
become statements about the trace.
-/

set_option maxRecDepth 100000

namespace ManimWeb

/-- A Python exception, reduced to what the client inspects: its string
representation `str(e)` and whether it is a `requests.RequestException`. -/
structure Exn where
  msg : String
  isReqExn : Bool
deriving DecidableEq

/-- The JSON body of a job-status response, with exactly the keys the
client reads (`result.get(...)`); a `none` field models an absent key. -/
structure JobResult where
  status : Option String := none
  video_url : Option String := none
  code : Option String := none
  error : Option String := none
  details : Option String := none
  skill : Option String := none
  style : Option String := none
  intent : Option String := none
deriving DecidableEq

/-- Outcome of one `requests.get(...json()` round during polling: either a
parsed body, or an exception raised by the GET or by the JSON parse. -/
inductive PollResponse where
  | ok (r : JobResult)
  | exn (e : Exn)
deriving DecidableEq

/-- Observable side effects of the client: the submission POST (carrying
the concept it sends), one status GET per poll attempt, and one fixed
2-second `time.sleep`. -/
inductive Ev where
  | post (concept : String)
  | query (attempt : Nat)
  | sleep
deriving DecidableEq

/-- Result of `poll_job_status`: a returned dict, or an uncaught exception
(only non-`RequestException` errors escape its `try`). -/
inductive PollOutcome where
  | returned (r : JobResult)
  | raised (e : Exn)
deriving DecidableEq

/-- The synthetic timeout dict `{"status": "failed", "error": "Generation
timed out"}` built after the attempt budget is exhausted. -/
def mkTimedOut : JobResult :=
  { status := some "failed", error := some "Generation timed out" }

/-- The synthetic dict `{"status": "failed", "error": str(e)}` built when a
`RequestException` hits the last poll attempt. -/
def mkNetFailed (m : String) : JobResult :=
  { status := some "failed", error := some m }

/-- Loop body of `poll_job_status` (src/web/app.py lines 21-37), fuel =
number of remaining iterations of `for attempt in range(max_attempts)`.
When the fuel runs out the loop falls through to the synthetic timeout
return.  A completed or failed status returns the dict as-is; a
`RequestException` on the last index returns the synthetic failure, on an
earlier index it sleeps and retries; any other exception is re-raised. -/
def pjs_go (oracle : Nat → PollResponse) (maxA : Nat) : Nat → Nat → List Ev × PollOutcome
  | _, 0 => ([], .returned mkTimedOut)
  | attempt, fuel+1 =>
    match oracle attempt with
    | .ok r =>
      if r.status = some "completed" then ([.query attempt], .returned r)
      else if r.status = some "failed" then ([.query attempt], .returned r)
      else
        let rest := pjs_go oracle maxA (attempt+1) fuel
        (.query attempt :: .sleep :: rest.1, rest.2)
    | .exn e =>
      if e.isReqExn then
        if attempt = maxA - 1 then ([.query attempt], .returned (mkNetFailed e.msg))
        else
          let rest := pjs_go oracle maxA (attempt+1) fuel
          (.query attempt :: .sleep :: rest.1, rest.2)
      else ([.query attempt], .raised e)

/-- The standalone poller `poll_job_status(job_id, max_attempts, delay)`:
runs the loop from attempt 0 with the full attempt budget. -/
def poll_job_status (oracle : Nat → PollResponse) (maxA : Nat) : List Ev × PollOutcome :=
  pjs_go oracle maxA 0 maxA

/-- The JSON body of a submission response, with the keys the client reads. -/
structure SubmitBody where
  error : Option String := none
  jobId : Option String := none
deriving DecidableEq

/-- Outcome of the submission POST: an exception from the POST itself, or a
response with a status code whose body either parses or raises. -/
inductive SubmitOutcome where
  | exn (e : Exn)
  | resp (code : Nat) (body : Except Exn SubmitBody)

/-- Behaviour of the remote service during one `generate_animation` call. -/
structure Service where
  submit : SubmitOutcome
  poll : Nat → PollResponse

/-- The triple `(video, code, status_message)` that `generate_animation`
returns to the UI; `none` models Python's `None` video component. -/
abbrev Triple := Option String × String × String

/-- How the outer exception handlers of `generate_animation` (lines
116-119) render an exception: `RequestException` becomes "Connection
error: {e}", anything else "Unexpected error: {e}". -/
def exnMsg (e : Exn) : String :=
  if e.isReqExn then "Connection error: " ++ e.msg else "Unexpected error: " ++ e.msg

/-- Python truthiness of `result.get(key)`: false for an absent key and for
the empty string. -/
def truthy : Option String → Bool
  | none => false
  | some s => !(s == "")

/-- The status message assembled on the completed path (lines 92-100):
starts from the success banner and appends a labelled part for each of
skill, style, intent whose value is truthy, joined with " | ". -/
def statusMsg (r : JobResult) : String :=
  let p1 := ["Animation generated successfully!"]
  let p2 := if truthy r.skill then p1 ++ ["Skill: " ++ r.skill.getD ""] else p1
  let p3 := if truthy r.style then p2 ++ ["Style: " ++ r.style.getD ""] else p2
  let p4 := if truthy r.intent then p3 ++ ["Intent: " ++ r.intent.getD ""] else p3
  String.intercalate " | " p4

/-- Python's `s.startswith(p)`, stated on character lists. -/
def strStartsWith (s p : String) : Bool :=
  p.data.isPrefixOf s.data

/-- The completed-path result (lines 87-105): the video URL defaults to ""
when absent, and is qualified with the API base exactly when it is
non-empty and does not start with "http". -/
def completedTriple (base : String) (r : JobResult) : Triple :=
  let video_url := r.video_url.getD ""
  let code := r.code.getD ""
  let msg := statusMsg r
  let video_url2 :=
    if !(video_url == "") && !(strStartsWith video_url "http") then base ++ video_url
    else video_url
  (some video_url2, code, msg)

/-- The failed-path result (lines 107-110): `Error: {error}\n{details}`
with defaults "Generation failed" and "". -/
def failedTriple (r : JobResult) : Triple :=
  (none, "", "Error: " ++ r.error.getD "Generation failed" ++ "\n" ++ r.details.getD "")

/-- The inline poll loop of `generate_animation` (lines 77-114): same
terminal checks as `poll_job_status`, but no per-attempt exception
handling — an exception escapes the loop (to the outer handlers), and the
fall-through result is the timeout triple. -/
def ga_loop (poll : Nat → PollResponse) (base : String) : Nat → Nat → List Ev × Except Exn Triple
  | _, 0 => ([], .ok (none, "", "Error: Generation timed out"))
  | attempt, fuel+1 =>
    match poll attempt with
    | .exn e => ([.query attempt], .error e)
    | .ok r =>
      if r.status = some "completed" then ([.query attempt], .ok (completedTriple base r))
      else if r.status = some "failed" then ([.query attempt], .ok (failedTriple r))
      else
        let rest := ga_loop poll base (attempt+1) fuel
        (.query attempt :: .sleep :: rest.1, rest.2)

/-- The whitespace characters stripped by Python's `str.strip()` (ASCII
whitespace; the scripts only ever pass these). -/
def pyIsSpace (c : Char) : Bool :=
  c == ' ' || c == '\t' || c == '\n' || c == '\r' || c == '\x0b' || c == '\x0c'

/-- Python's `prompt.strip()`: drop whitespace from both ends. -/
def py_strip (s : String) : String :=
  ⟨((s.data.dropWhile pyIsSpace).reverse.dropWhile pyIsSpace).reverse⟩

/-- The attempt bound of `generate_animation`'s poll loop (line 76):
`max_attempts = 120 if quality == "high" else 60`. -/
def ga_max_attempts (quality : String) : Nat :=
  if quality = "high" then 120 else 60

/-- Python truthiness of `data.get("jobId")` in `if not job_id` (line 71):
absent or empty means falsy. -/
def jobIdFalsy : Option String → Bool
  | none => true
  | some s => s == ""

/-- Inputs of `generate_animation` (the `progress` callback is cosmetic
and not modelled). -/
structure GAInput where
  prompt : String
  style : String
  quality : String
  use_nlu : Bool

/-- The fixed validation message returned for a blank prompt (line 48). -/
def blankPromptMsg : String :=
  "Please enter a prompt describing what you want to animate."

/-- `generate_animation` (src/web/app.py lines 40-119): validate the
prompt, POST the request, check for 202 and a job id, then run the inline
poll loop; the outer `except` clauses turn any exception raised inside the
`try` into a failure triple via `exnMsg`. -/
def generate_animation (svc : Service) (base : String) (inp : GAInput) : List Ev × Triple :=
  if py_strip inp.prompt = "" then
    ([], (none, "", blankPromptMsg))
  else
    let c := py_strip inp.prompt
    match svc.submit with
    | .exn e => ([.post c], (none, "", exnMsg e))
    | .resp code body =>
      if code ≠ 202 then
        match body with
        | .error e => ([.post c], (none, "", exnMsg e))
        | .ok b => ([.post c], (none, "", "Error: " ++ b.error.getD "Unknown error"))
      else
        match body with
        | .error e => ([.post c], (none, "", exnMsg e))
        | .ok b =>
          if jobIdFalsy b.jobId then
            ([.post c], (none, "", "Error: No job ID received"))
          else
            let run := ga_loop svc.poll base 0 (ga_max_attempts inp.quality)
            (.post c :: run.1,
              match run.2 with
              | .ok t => t
              | .error e => (none, "", exnMsg e))

/-- The trace produced by `n` consecutive non-terminal poll attempts
starting at index `a`: each queries, then sleeps the fixed interval. -/
def loopTrace : Nat → Nat → List Ev
  | _, 0 => []
  | a, n+1 => .query a :: .sleep :: loopTrace (a+1) n

/-- Recognises a status-query event. -/
def isQueryEv : Ev → Bool
  | .query _ => true
  | _ => false

/-- Number of status queries recorded in a trace. -/
def queryCount (evs : List Ev) : Nat := (evs.filter isQueryEv).length

/-- A poll response on which `poll_job_status` at attempt index `j` keeps
looping: a non-terminal body, or a `RequestException` off the last index. -/
def pjsRetries (maxA : Nat) (p : PollResponse) (j : Nat) : Bool :=
  match p with
  | .ok r => !(r.status == some "completed") && !(r.status == some "failed")
  | .exn e => e.isReqExn && !(j == maxA - 1)

/-- A poll response with a body that is neither completed nor failed (the
only case in which `generate_animation`'s loop keeps going). -/
def pendingOk : PollResponse → Bool
  | .ok r => !(r.status == some "completed") && !(r.status == some "failed")
  | .exn _ => false

/-- A service that accepts the submission with job id "job-1" and answers
every status query with the same body `r`; used to instantiate theorems. -/
def svcCompleted (r : JobResult) : Service :=
  { submit := .resp 202 (.ok { jobId := some "job-1" }), poll := fun _ => .ok r }

/-- Status message as the spec's sentence for C7 words it: the banner plus
a labelled part for each of skill, style, intent that is *present* in the
result (absent fields omitted), joined with " | ".  Refinement target to be
compared with `statusMsg`, which the source builds from *truthy* fields. -/
def statusMsgClaimed (r : JobResult) : String :=
  String.intercalate " | " (["Animation generated successfully!"] ++
    (match r.skill with | some s => ["Skill: " ++ s] | none => []) ++
    (match r.style with | some s => ["Style: " ++ s] | none => []) ++
    (match r.intent with | some s => ["Intent: " ++ s] | none => []))

/-- Oracle instance: pending once, then `RequestException`s forever. -/
def c1Oracle : Nat → PollResponse :=
  fun j => if j = 0 then .ok { status := some "pending" } else .exn ⟨"boom", true⟩

/-- Oracle instance: every status query returns a pending body. -/
def pendOracle : Nat → PollResponse :=
  fun _ => .ok { status := some "pending" }

/-- Service instance: submission accepted, polls forever pending. -/
def svcPending : Service :=
  { submit := .resp 202 (.ok { jobId := some "job-1" }), poll := pendOracle }

/-- Service instance: submission accepted, first status query raises a
non-`RequestException` error. -/
def svcPollRaise : Service :=
  { submit := .resp 202 (.ok { jobId := some "job-1" }), poll := fun _ => .exn ⟨"boom", false⟩ }

/-- The completed body of the spec's example scenario for C7. -/
def exampleResult : JobResult :=
  { status := some "completed", video_url := some "/v/abc.mp4",
    skill := some "math", style := some "3blue1brown" }

/-- Service instance for the spec's example scenario: two pending polls,
then the completed example body. -/
def exampleSvc : Service :=
  { submit := .resp 202 (.ok { jobId := some "abc" }),
    poll := fun j => if j < 2 then .ok { status := some "pending" } else .ok exampleResult }

theorem queryCount_loopTrace : ∀ (n a : Nat), queryCount (loopTrace a n) = n := by
  intro n
  induction n with
  | zero => intro a; rfl
  | succ m ih =>
    intro a
    simp only [loopTrace, queryCount, List.filter] at *
    simpa [isQueryEv] using ih (a + 1)

theorem queryCount_append (l1 l2 : List Ev) :
    queryCount (l1 ++ l2) = queryCount l1 + queryCount l2 := by
  simp [queryCount, List.filter_append]

theorem pjs_go_skip (oracle : Nat → PollResponse) (maxA i : Nat) :
    ∀ fuel a, a ≤ i → i - a ≤ fuel →
    (∀ j, a ≤ j → j < i → pjsRetries maxA (oracle j) j = true) →
    pjs_go oracle maxA a fuel =
      (loopTrace a (i - a) ++ (pjs_go oracle maxA i (fuel - (i - a))).1,
       (pjs_go oracle maxA i (fuel - (i - a))).2) := by
  intro fuel
  induction fuel with
  | zero =>
    intro a hai hfa _
    have hia : i = a := by omega
    subst hia
    simp [loopTrace]
  | succ f ih =>
    intro a hai hfa hpre
    by_cases hia : a = i
    · subst hia
      simp [loopTrace]
    · have halt : a < i := lt_of_le_of_ne hai hia
      have hra := hpre a le_rfl halt
      have hstep : i - a = (i - (a + 1)) + 1 := by omega
      have hfuel : (f + 1) - ((i - (a + 1)) + 1) = f - (i - (a + 1)) := by omega
      have hrec := ih (a + 1) (by omega) (by omega)
        (fun j h1 h2 => hpre j (by omega) h2)
      rw [hstep, hfuel]
      cases horc : oracle a with
      | ok r =>
        rw [horc] at hra
        simp only [pjsRetries, Bool.and_eq_true, Bool.not_eq_true', beq_eq_false_iff_ne,
          ne_eq] at hra
        simp only [pjs_go, horc, if_neg hra.1, if_neg hra.2, hrec, loopTrace,
          List.cons_append]
      | exn e =>
        rw [horc] at hra
        simp only [pjsRetries, Bool.and_eq_true, Bool.not_eq_true', beq_eq_false_iff_ne,
          ne_eq] at hra
        simp only [pjs_go, horc, if_pos hra.1, if_neg hra.2, hrec, loopTrace,
          List.cons_append]

theorem pjs_go_head (oracle : Nat → PollResponse) (maxA a f : Nat) :
    ∃ t, (pjs_go oracle maxA a (f + 1)).1 = .query a :: t := by
  cases horc : oracle a with
  | ok r =>
    simp only [pjs_go, horc]
    split
    · exact ⟨_, rfl⟩
    · split
      · exact ⟨_, rfl⟩
      · exact ⟨_, rfl⟩
  | exn e =>
    simp only [pjs_go, horc]
    split
    · split
      · exact ⟨_, rfl⟩
      · exact ⟨_, rfl⟩
    · exact ⟨_, rfl⟩

theorem pjs_go_terminal (oracle : Nat → PollResponse) (maxA a fuel : Nat) (r : JobResult)
    (h0 : 0 < fuel) (hp : oracle a = .ok r)
    (hs : r.status = some "completed" ∨ r.status = some "failed") :
    pjs_go oracle maxA a fuel = ([.query a], .returned r) := by
  cases fuel with
  | zero => omega
  | succ f =>
    rcases hs with hs | hs <;> simp [pjs_go, hp, hs]

theorem pjs_go_pending (oracle : Nat → PollResponse) (maxA : Nat)
    (h : ∀ j, pendingOk (oracle j) = true) :
    ∀ fuel a, pjs_go oracle maxA a fuel = (loopTrace a fuel, .returned mkTimedOut) := by
  intro fuel
  induction fuel with
  | zero => intro a; rfl
  | succ f ih =>
    intro a
    have ha := h a
    cases horc : oracle a with
    | ok r =>
      rw [horc] at ha
      simp only [pendingOk, Bool.and_eq_true, Bool.not_eq_true', beq_eq_false_iff_ne,
        ne_eq] at ha
      simp only [pjs_go, horc, if_neg ha.1, if_neg ha.2, ih (a + 1), loopTrace]
    | exn e =>
      rw [horc] at ha
      simp [pendingOk] at ha

theorem ga_loop_skip (poll : Nat → PollResponse) (base : String) (i : Nat) :
    ∀ fuel a, a ≤ i → i - a ≤ fuel →
    (∀ j, a ≤ j → j < i → pendingOk (poll j) = true) →
    ga_loop poll base a fuel =
      (loopTrace a (i - a) ++ (ga_loop poll base i (fuel - (i - a))).1,
       (ga_loop poll base i (fuel - (i - a))).2) := by
  intro fuel
  induction fuel with
  | zero =>
    intro a hai hfa _
    have hia : i = a := by omega
    subst hia
    simp [loopTrace]
  | succ f ih =>
    intro a hai hfa hpre
    by_cases hia : a = i
    · subst hia
      simp [loopTrace]
    · have halt : a < i := lt_of_le_of_ne hai hia
      have hra := hpre a le_rfl halt
      have hstep : i - a = (i - (a + 1)) + 1 := by omega
      have hfuel : (f + 1) - ((i - (a + 1)) + 1) = f - (i - (a + 1)) := by omega
      have hrec := ih (a + 1) (by omega) (by omega)
        (fun j h1 h2 => hpre j (by omega) h2)
      rw [hstep, hfuel]
      cases horc : poll a with
      | ok r =>
        rw [horc] at hra
        simp only [pendingOk, Bool.and_eq_true, Bool.not_eq_true', beq_eq_false_iff_ne,
          ne_eq] at hra
        simp only [ga_loop, horc, if_neg hra.1, if_neg hra.2, hrec, loopTrace,
          List.cons_append]
      | exn e =>
        rw [horc] at hra
        simp [pendingOk] at hra

theorem ga_loop_completed (poll : Nat → PollResponse) (base : String) (a fuel : Nat)
    (r : JobResult) (h0 : 0 < fuel) (hp : poll a = .ok r)
    (hs : r.status = some "completed") :
    ga_loop poll base a fuel = ([.query a], .ok (completedTriple base r)) := by
  cases fuel with
  | zero => omega
  | succ f => simp [ga_loop, hp, hs]

theorem ga_loop_failed (poll : Nat → PollResponse) (base : String) (a fuel : Nat)
    (r : JobResult) (h0 : 0 < fuel) (hp : poll a = .ok r)
    (hs : r.status = some "failed") :
    ga_loop poll base a fuel = ([.query a], .ok (failedTriple r)) := by
  cases fuel with
  | zero => omega
  | succ f => simp [ga_loop, hp, hs]

theorem ga_loop_exn (poll : Nat → PollResponse) (base : String) (a fuel : Nat)
    (e : Exn) (h0 : 0 < fuel) (hp : poll a = .exn e) :
    ga_loop poll base a fuel = ([.query a], .error e) := by
  cases fuel with
  | zero => omega
  | succ f => simp [ga_loop, hp]

theorem ga_loop_pending (poll : Nat → PollResponse) (base : String)
    (h : ∀ j, pendingOk (poll j) = true) :
    ∀ fuel a, ga_loop poll base a fuel =
      (loopTrace a fuel, .ok (none, "", "Error: Generation timed out")) := by
  intro fuel
  induction fuel with
  | zero => intro a; rfl
  | succ f ih =>
    intro a
    have ha := h a
    cases horc : poll a with
    | ok r =>
      rw [horc] at ha
      simp only [pendingOk, Bool.and_eq_true, Bool.not_eq_true', beq_eq_false_iff_ne,
        ne_eq] at ha
      simp only [ga_loop, horc, if_neg ha.1, if_neg ha.2, ih (a + 1), loopTrace]
    | exn e =>
      rw [horc] at ha
      simp [pendingOk] at ha

theorem ga_loop_ok_none (poll : Nat → PollResponse) (base : String) :
    ∀ fuel a t, (ga_loop poll base a fuel).2 = .ok t → t.1 = none → t.2.1 = "" := by
  intro fuel
  induction fuel with
  | zero =>
    intro a t ht _
    simp only [ga_loop] at ht
    cases ht
    rfl
  | succ f ih =>
    intro a t ht hnone
    cases horc : poll a with
    | ok r =>
      by_cases hc : r.status = some "completed"
      · rw [ga_loop_completed poll base a (f + 1) r (by omega) horc hc] at ht
        cases ht
        simp [completedTriple] at hnone
      · by_cases hf : r.status = some "failed"
        · rw [ga_loop_failed poll base a (f + 1) r (by omega) horc hf] at ht
          cases ht
          rfl
        · simp only [ga_loop, horc, if_neg hc, if_neg hf] at ht
          exact ih (a + 1) t ht hnone
    | exn e =>
      rw [ga_loop_exn poll base a (f + 1) e (by omega) horc] at ht
      cases ht

theorem ga_loop_ok_some (poll : Nat → PollResponse) (base : String) :
    ∀ fuel a t, (ga_loop poll base a fuel).2 = .ok t → t.1 ≠ none →
    ∃ i r, a ≤ i ∧ i < a + fuel ∧
      (∀ j, a ≤ j → j < i → pendingOk (poll j) = true) ∧
      poll i = .ok r ∧ r.status = some "completed" ∧ t = completedTriple base r := by
  intro fuel
  induction fuel with
  | zero =>
    intro a t ht hsome
    simp only [ga_loop] at ht
    cases ht
    simp at hsome
  | succ f ih =>
    intro a t ht hsome
    cases horc : poll a with
    | ok r =>
      by_cases hc : r.status = some "completed"
      · rw [ga_loop_completed poll base a (f + 1) r (by omega) horc hc] at ht
        cases ht
        exact ⟨a, r, le_rfl, by omega, fun j h1 h2 => absurd h2 (by omega), horc, hc, rfl⟩
      · by_cases hf : r.status = some "failed"
        · rw [ga_loop_failed poll base a (f + 1) r (by omega) horc hf] at ht
          cases ht
          simp [failedTriple] at hsome
        · simp only [ga_loop, horc, if_neg hc, if_neg hf] at ht
          obtain ⟨i, r2, hi1, hi2, hpre, hpi, hst, hteq⟩ := ih (a + 1) t ht hsome
          refine ⟨i, r2, by omega, by omega, ?_, hpi, hst, hteq⟩
          intro j h1 h2
          rcases Nat.eq_or_lt_of_le h1 with h1 | h1
          · subst h1
            simp only [pendingOk, horc, Bool.and_eq_true, Bool.not_eq_true',
              beq_eq_false_iff_ne, ne_eq]
            exact ⟨hc, hf⟩
          · exact hpre j (by omega) h2
    | exn e =>
      rw [ga_loop_exn poll base a (f + 1) e (by omega) horc] at ht
      cases ht

theorem ga_max_attempts_pos (q : String) : 0 < ga_max_attempts q := by
  unfold ga_max_attempts
  split <;> omega

theorem ga_unfold_loop (svc : Service) (base : String) (inp : GAInput) (b : SubmitBody)
    (hp : ¬ py_strip inp.prompt = "") (hs : svc.submit = .resp 202 (.ok b))
    (hid : jobIdFalsy b.jobId = false) :
    generate_animation svc base inp =
      (.post (py_strip inp.prompt) ::
          (ga_loop svc.poll base 0 (ga_max_attempts inp.quality)).1,
        match (ga_loop svc.poll base 0 (ga_max_attempts inp.quality)).2 with
        | .ok t => t
        | .error e => (none, "", exnMsg e)) := by
  have h202 : ¬ ((202 : Nat) ≠ 202) := by omega
  simp only [generate_animation, if_neg hp, hs, if_neg h202, hid, Bool.false_eq_true,
    if_false]

theorem py_strip_blank (s : String) (h : ∀ c ∈ s.data, pyIsSpace c = true) :
    py_strip s = "" := by
  have hd : s.data.dropWhile pyIsSpace = [] := List.dropWhile_eq_nil_iff.2 h
  have : py_strip s = ⟨[]⟩ := by
    simp [py_strip, hd]
  rw [this]

theorem ga_poll_reach (svc : Service) (base : String) (inp : GAInput) (b : SubmitBody)
    (i : Nat) (hp : ¬ py_strip inp.prompt = "") (hs : svc.submit = .resp 202 (.ok b))
    (hid : jobIdFalsy b.jobId = false)
    (hpre : ∀ j, j < i → pendingOk (svc.poll j) = true)
    (hi : i < ga_max_attempts inp.quality) :
    generate_animation svc base inp =
      (.post (py_strip inp.prompt) ::
          (loopTrace 0 i ++
            (ga_loop svc.poll base i (ga_max_attempts inp.quality - i)).1),
        match (ga_loop svc.poll base i (ga_max_attempts inp.quality - i)).2 with
        | .ok t => t
        | .error e => (none, "", exnMsg e)) := by
  have hun := ga_unfold_loop svc base inp b hp hs hid
  have hskip := ga_loop_skip svc.poll base i (ga_max_attempts inp.quality) 0
    (Nat.zero_le i) (by omega) (fun j _ h2 => hpre j h2)
  simp only [Nat.sub_zero] at hskip
  rw [hskip] at hun
  exact hun

/-- C3: for every quality value other than "high" the poll-loop attempt
bound used by `generate_animation` is 60, and for "high" it is 120. -/
theorem c3_max_attempts_by_quality (q : String) :
    (q ≠ "high" → ga_max_attempts q = 60) ∧ (q = "high" → ga_max_attempts q = 120) := by
  constructor
  · intro h
    simp [ga_max_attempts, h]
  · intro h
    simp [ga_max_attempts, h]

theorem c3_witness : ga_max_attempts "low" = 60 ∧ ga_max_attempts "high" = 120 :=
  ⟨(c3_max_attempts_by_quality "low").1 (by decide),
   (c3_max_attempts_by_quality "high").2 rfl⟩

/-- C4: for every prompt that is empty or all whitespace (and any remote
behaviour), `generate_animation` records no network event and returns
`(None, "", "Please enter a prompt describing what you want to animate.")`. -/
theorem c4_blank_prompt_validation (svc : Service) (base : String) (inp : GAInput)
    (h : ∀ c ∈ inp.prompt.data, pyIsSpace c = true) :
    generate_animation svc base inp = ([], (none, "", blankPromptMsg)) := by
  have hb : py_strip inp.prompt = "" := py_strip_blank _ h
  simp [generate_animation, hb]

theorem c4_witness :
    generate_animation svcPending "http://localhost:3000" ⟨"  ", "3blue1brown", "low", true⟩ =
      ([], (none, "", blankPromptMsg)) :=
  c4_blank_prompt_validation svcPending "http://localhost:3000"
    ⟨"  ", "3blue1brown", "low", true⟩ (by decide)

/-- C1: in `poll_job_status` (0-indexed attempt `i` is the (i+1)-th of
max_attempts), a `RequestException` raised by a status query that is not
the last allowed attempt does not terminate the loop — the trace continues
with the fixed sleep and the next query — while the same exception on the
last attempt terminates the loop returning the failure dict whose error is
the exception's string representation, with no further query. -/
theorem c1_transport_exception_retry (oracle : Nat → PollResponse) (maxA i : Nat) (e : Exn)
    (hpre : ∀ j, j < i → pjsRetries maxA (oracle j) j = true)
    (hi : i < maxA) (ho : oracle i = .exn e) (hreq : e.isReqExn = true) :
    (i + 1 < maxA →
      ∃ tail, (poll_job_status oracle maxA).1 =
        loopTrace 0 i ++ .query i :: .sleep :: .query (i + 1) :: tail) ∧
    (i + 1 = maxA →
      poll_job_status oracle maxA =
        (loopTrace 0 i ++ [.query i], .returned (mkNetFailed e.msg))) := by
  have hskip := pjs_go_skip oracle maxA i maxA 0 (Nat.zero_le i) (by omega)
    (fun j _ h2 => hpre j h2)
  simp only [Nat.sub_zero] at hskip
  constructor
  · intro hlt
    have hfe : maxA - i = (maxA - i - 2) + 1 + 1 := by omega
    have hne : ¬ (i = maxA - 1) := by omega
    obtain ⟨t, hhd⟩ := pjs_go_head oracle maxA (i + 1) (maxA - i - 2)
    refine ⟨t, ?_⟩
    show (pjs_go oracle maxA 0 maxA).1 = _
    rw [hskip, hfe]
    have hstep : pjs_go oracle maxA i ((maxA - i - 2) + 1 + 1) =
        (.query i :: .sleep :: (pjs_go oracle maxA (i + 1) ((maxA - i - 2) + 1)).1,
         (pjs_go oracle maxA (i + 1) ((maxA - i - 2) + 1)).2) := by
      simp [pjs_go, ho, hreq, hne]
    rw [hstep]
    simp [hhd]
  · intro heq
    have h1 : maxA - i = 1 := by omega
    have hlast : i = maxA - 1 := by omega
    have hstep : pjs_go oracle maxA i 1 = ([.query i], .returned (mkNetFailed e.msg)) := by
      simp only [pjs_go, ho]
      rw [if_pos hreq, if_pos hlast]
    show pjs_go oracle maxA 0 maxA = _
    rw [hskip, h1, hstep]

theorem c1_witness :
    (∃ tail, (poll_job_status c1Oracle 3).1 =
        loopTrace 0 1 ++ .query 1 :: .sleep :: .query 2 :: tail) ∧
    poll_job_status c1Oracle 3 =
      (loopTrace 0 2 ++ [.query 2], .returned (mkNetFailed "boom")) :=
  ⟨(c1_transport_exception_retry c1Oracle 3 1 ⟨"boom", true⟩ (by decide) (by decide)
      (by decide) rfl).1 (by decide),
   (c1_transport_exception_retry c1Oracle 3 2 ⟨"boom", true⟩ (by decide) (by decide)
      (by decide) rfl).2 rfl⟩

theorem queryCount_cons_post (c : String) (l : List Ev) :
    queryCount (.post c :: l) = queryCount l := by
  simp [queryCount, List.filter, isQueryEv]

/-- C2: if every status query returns a non-terminal body, both poll loops
perform exactly `max_attempts` queries, each followed by the fixed sleep,
and return the synthetic timeout failure: `poll_job_status` returns the
dict `mkTimedOut` (whose error is "Generation timed out"), and
`generate_animation` the triple carrying "Error: Generation timed out". -/
theorem c2_all_pending_timeout :
    (∀ (oracle : Nat → PollResponse) (maxA : Nat),
      (∀ j, pendingOk (oracle j) = true) →
      poll_job_status oracle maxA = (loopTrace 0 maxA, .returned mkTimedOut) ∧
      queryCount (poll_job_status oracle maxA).1 = maxA) ∧
    (∀ (svc : Service) (base : String) (inp : GAInput) (b : SubmitBody),
      ¬ py_strip inp.prompt = "" → svc.submit = .resp 202 (.ok b) →
      jobIdFalsy b.jobId = false → (∀ j, pendingOk (svc.poll j) = true) →
      generate_animation svc base inp =
        (.post (py_strip inp.prompt) :: loopTrace 0 (ga_max_attempts inp.quality),
          (none, "", "Error: Generation timed out")) ∧
      queryCount (generate_animation svc base inp).1 = ga_max_attempts inp.quality) ∧
    mkTimedOut.error = some "Generation timed out" := by
  refine ⟨?_, ?_, rfl⟩
  · intro oracle maxA h
    have hrun := pjs_go_pending oracle maxA h maxA 0
    refine ⟨hrun, ?_⟩
    show queryCount (pjs_go oracle maxA 0 maxA).1 = maxA
    rw [hrun]
    exact queryCount_loopTrace maxA 0
  · intro svc base inp b hp hs hid hpoll
    have hun := ga_unfold_loop svc base inp b hp hs hid
    have hl := ga_loop_pending svc.poll base hpoll (ga_max_attempts inp.quality) 0
    rw [hl] at hun
    refine ⟨hun, ?_⟩
    rw [hun, queryCount_cons_post]
    exact queryCount_loopTrace _ 0

theorem c2_witness :
    poll_job_status pendOracle 3 = (loopTrace 0 3, .returned mkTimedOut) ∧
    generate_animation svcPending "http://localhost:3000"
        ⟨"draw a circle", "3blue1brown", "low", true⟩ =
      (.post "draw a circle" :: loopTrace 0 60, (none, "", "Error: Generation timed out")) :=
  ⟨(c2_all_pending_timeout.1 pendOracle 3 (fun _ => rfl)).1,
   (c2_all_pending_timeout.2.1 svcPending "http://localhost:3000"
      ⟨"draw a circle", "3blue1brown", "low", true⟩ { jobId := some "job-1" }
      (by decide) rfl rfl (fun _ => rfl)).1⟩

/-- C5: if the loop reaches 0-indexed attempt `i` (everything earlier was
non-terminal) and the status query at `i` returns a completed or failed
body, both poll loops terminate at attempt `i`: the trace ends with
`query i` — no later status query occurs — and the terminal body is
returned (as the raw dict by `poll_job_status`; as the completed or
failed triple by `generate_animation`). -/
theorem c5_terminal_stops_polling :
    (∀ (oracle : Nat → PollResponse) (maxA i : Nat) (r : JobResult),
      (∀ j, j < i → pjsRetries maxA (oracle j) j = true) → i < maxA →
      oracle i = .ok r → (r.status = some "completed" ∨ r.status = some "failed") →
      poll_job_status oracle maxA = (loopTrace 0 i ++ [.query i], .returned r)) ∧
    (∀ (svc : Service) (base : String) (inp : GAInput) (b : SubmitBody) (i : Nat)
        (r : JobResult),
      ¬ py_strip inp.prompt = "" → svc.submit = .resp 202 (.ok b) →
      jobIdFalsy b.jobId = false →
      (∀ j, j < i → pendingOk (svc.poll j) = true) → i < ga_max_attempts inp.quality →
      svc.poll i = .ok r →
      (r.status = some "completed" →
        generate_animation svc base inp =
          (.post (py_strip inp.prompt) :: (loopTrace 0 i ++ [.query i]),
            completedTriple base r)) ∧
      (r.status = some "failed" →
        generate_animation svc base inp =
          (.post (py_strip inp.prompt) :: (loopTrace 0 i ++ [.query i]),
            failedTriple r))) := by
  constructor
  · intro oracle maxA i r hpre hi ho hs
    have hskip := pjs_go_skip oracle maxA i maxA 0 (Nat.zero_le i) (by omega)
      (fun j _ h2 => hpre j h2)
    simp only [Nat.sub_zero] at hskip
    have hstep := pjs_go_terminal oracle maxA i (maxA - i) r (by omega) ho hs
    show pjs_go oracle maxA 0 maxA = _
    rw [hskip, hstep]
  · intro svc base inp b i r hp hsub hid hpre hi ho
    have hreach := ga_poll_reach svc base inp b i hp hsub hid hpre hi
    constructor
    · intro hs
      have hstep := ga_loop_completed svc.poll base i (ga_max_attempts inp.quality - i) r
        (by omega) ho hs
      rw [hreach, hstep]
    · intro hs
      have hstep := ga_loop_failed svc.poll base i (ga_max_attempts inp.quality - i) r
        (by omega) ho hs
      rw [hreach, hstep]

theorem c5_witness :
    poll_job_status exampleSvc.poll 60 =
      (loopTrace 0 2 ++ [.query 2], .returned exampleResult) ∧
    generate_animation exampleSvc "http://localhost:3000"
        ⟨"pythagorean theorem", "3blue1brown", "low", true⟩ =
      (.post "pythagorean theorem" :: (loopTrace 0 2 ++ [.query 2]),
        completedTriple "http://localhost:3000" exampleResult) :=
  ⟨(c5_terminal_stops_polling.1 exampleSvc.poll 60 2 exampleResult (by decide) (by decide)
      (by decide) (Or.inl rfl)),
   (c5_terminal_stops_polling.2 exampleSvc "http://localhost:3000"
      ⟨"pythagorean theorem", "3blue1brown", "low", true⟩ { jobId := some "abc" } 2
      exampleResult (by decide) rfl rfl (by decide) (by decide) (by decide)).1 rfl⟩

/-- C6 counterexample: a completed job whose `video_url` is the empty
string does not start with "http", yet the client returns it as-is
(`some ""`), not prefixed with the API base — so the claim's universal
statement fails at this input. -/
theorem c6_counterexample :
    strStartsWith "" "http" = false ∧
    (generate_animation (svcCompleted { status := some "completed", video_url := some "" })
        "http://localhost:3000" ⟨"plot a sine wave", "minimalist", "low", true⟩).2.1 =
      some "" ∧
    ¬ (generate_animation (svcCompleted { status := some "completed", video_url := some "" })
        "http://localhost:3000" ⟨"plot a sine wave", "minimalist", "low", true⟩).2.1 =
      some ("http://localhost:3000" ++ "") := by
  refine ⟨rfl, ?_, ?_⟩ <;> decide

/-- C6 amended: for every completed job whose `video_url` is present and
non-empty, a URL that does not start with "http" is returned prefixed
with the configured API base, and one that already starts with "http" is
returned unchanged. -/
theorem c6_video_url_qualified (base : String) (r : JobResult) (u : String) (inp : GAInput)
    (hp : ¬ py_strip inp.prompt = "") (hs : r.status = some "completed")
    (hu : r.video_url = some u) (hne : ¬ u = "") :
    (generate_animation (svcCompleted r) base inp).2.1 =
      some (if strStartsWith u "http" then u else base ++ u) := by
  have hreach := ga_poll_reach (svcCompleted r) base inp { jobId := some "job-1" } 0 hp rfl
    rfl (fun j h => absurd h (Nat.not_lt_zero j)) (ga_max_attempts_pos inp.quality)
  have hstep := ga_loop_completed (svcCompleted r).poll base 0
    (ga_max_attempts inp.quality - 0) r (by have := ga_max_attempts_pos inp.quality; omega)
    rfl hs
  rw [hreach, hstep]
  simp only [completedTriple, hu, Option.getD_some]
  have hbe : (u == "") = false := by
    simpa using hne
  cases hsw : strStartsWith u "http" <;> simp [hbe, hsw]

theorem c6_witness :
    (generate_animation
        (svcCompleted { status := some "completed", video_url := some "/v/abc.mp4" })
        "http://localhost:3000" ⟨"show vectors", "corporate", "low", true⟩).2.1 =
      some "http://localhost:3000/v/abc.mp4" ∧
    (generate_animation
        (svcCompleted
          { status := some "completed", video_url := some "https://cdn.example/x.mp4" })
        "http://localhost:3000" ⟨"show vectors", "corporate", "low", true⟩).2.1 =
      some "https://cdn.example/x.mp4" := by
  constructor
  · have h := c6_video_url_qualified "http://localhost:3000"
      { status := some "completed", video_url := some "/v/abc.mp4" } "/v/abc.mp4"
      ⟨"show vectors", "corporate", "low", true⟩ (by decide) rfl rfl (by decide)
    rw [h]
    decide
  · have h := c6_video_url_qualified "http://localhost:3000"
      { status := some "completed", video_url := some "https://cdn.example/x.mp4" }
      "https://cdn.example/x.mp4"
      ⟨"show vectors", "corporate", "low", true⟩ (by decide) rfl rfl (by decide)
    rw [h]
    decide

theorem statusMsg_eq_join (r : JobResult) :
    statusMsg r =
      String.intercalate " | " (["Animation generated successfully!"] ++
        (if truthy r.skill then ["Skill: " ++ r.skill.getD ""] else []) ++
        (if truthy r.style then ["Style: " ++ r.style.getD ""] else []) ++
        (if truthy r.intent then ["Intent: " ++ r.intent.getD ""] else [])) := by
  unfold statusMsg
  cases truthy r.skill <;> cases truthy r.style <;> cases truthy r.intent <;> simp

/-- C7 counterexample: a completed job carrying a *present* but empty
`skill` field refutes the claim as stated — the metadata field is present
in the result, yet the client's status message omits it (the source tests
truthiness, not presence), so it differs from the message assembled from
all present fields. -/
theorem c7_counterexample :
    (generate_animation (svcCompleted { status := some "completed", skill := some "" })
        "http://localhost:3000" ⟨"bubble sort", "playful", "low", true⟩).2.2.2 =
      "Animation generated successfully!" ∧
    statusMsgClaimed { status := some "completed", skill := some "" } =
      "Animation generated successfully! | Skill: " ∧
    ¬ (generate_animation (svcCompleted { status := some "completed", skill := some "" })
        "http://localhost:3000" ⟨"bubble sort", "playful", "low", true⟩).2.2.2 =
      statusMsgClaimed { status := some "completed", skill := some "" } := by
  refine ⟨?_, rfl, ?_⟩ <;> decide

/-- C7 amended: for every completed job result, the returned status message
joins, with delimiter " | ", the success banner and exactly those of the
metadata fields skill, style, intent that are present with a non-empty
value; absent (or empty) fields are omitted without error. -/
theorem c7_status_message (r : JobResult) (base : String) (inp : GAInput)
    (hp : ¬ py_strip inp.prompt = "") (hs : r.status = some "completed") :
    (generate_animation (svcCompleted r) base inp).2.2.2 =
      String.intercalate " | " (["Animation generated successfully!"] ++
        (if truthy r.skill then ["Skill: " ++ r.skill.getD ""] else []) ++
        (if truthy r.style then ["Style: " ++ r.style.getD ""] else []) ++
        (if truthy r.intent then ["Intent: " ++ r.intent.getD ""] else [])) := by
  have hreach := ga_poll_reach (svcCompleted r) base inp { jobId := some "job-1" } 0 hp rfl
    rfl (fun j h => absurd h (Nat.not_lt_zero j)) (ga_max_attempts_pos inp.quality)
  have hstep := ga_loop_completed (svcCompleted r).poll base 0
    (ga_max_attempts inp.quality - 0) r (by have := ga_max_attempts_pos inp.quality; omega)
    rfl hs
  rw [hreach, hstep]
  exact statusMsg_eq_join r

theorem c7_witness :
    (generate_animation (svcCompleted exampleResult) "http://localhost:3000"
        ⟨"pythagorean theorem", "3blue1brown", "low", true⟩).2.2.2 =
      "Animation generated successfully! | Skill: math | Style: 3blue1brown" := by
  have h := c7_status_message exampleResult "http://localhost:3000"
    ⟨"pythagorean theorem", "3blue1brown", "low", true⟩ (by decide) rfl
  rw [h]
  decide

/-- C8: `generate_animation` is a total function into result triples
(the embedding of its catch-all handlers), and every exception the remote
interaction can raise after validation — from the submission POST, from
parsing the submission response (on either status-code branch), or from a
status query at any reached poll attempt — is converted into a failure
triple whose message `exnMsg e` is a fixed prefix followed by the
exception's string representation. -/
theorem c8_no_exception_propagation :
    (∀ e : Exn, ∃ s, exnMsg e = s ++ e.msg) ∧
    (∀ (svc : Service) (base : String) (inp : GAInput) (e : Exn),
      ¬ py_strip inp.prompt = "" → svc.submit = .exn e →
      generate_animation svc base inp =
        ([.post (py_strip inp.prompt)], (none, "", exnMsg e))) ∧
    (∀ (svc : Service) (base : String) (inp : GAInput) (code : Nat) (e : Exn),
      ¬ py_strip inp.prompt = "" → svc.submit = .resp code (.error e) →
      generate_animation svc base inp =
        ([.post (py_strip inp.prompt)], (none, "", exnMsg e))) ∧
    (∀ (svc : Service) (base : String) (inp : GAInput) (b : SubmitBody) (i : Nat) (e : Exn),
      ¬ py_strip inp.prompt = "" → svc.submit = .resp 202 (.ok b) →
      jobIdFalsy b.jobId = false →
      (∀ j, j < i → pendingOk (svc.poll j) = true) → i < ga_max_attempts inp.quality →
      svc.poll i = .exn e →
      generate_animation svc base inp =
        (.post (py_strip inp.prompt) :: (loopTrace 0 i ++ [.query i]),
          (none, "", exnMsg e))) := by
  refine ⟨?_, ?_, ?_, ?_⟩
  · intro e
    cases he : e.isReqExn with
    | false => exact ⟨"Unexpected error: ", by simp [exnMsg, he]⟩
    | true => exact ⟨"Connection error: ", by simp [exnMsg, he]⟩
  · intro svc base inp e hp hs
    simp only [generate_animation, if_neg hp, hs]
  · intro svc base inp code e hp hs
    by_cases h202 : code ≠ 202
    · simp only [generate_animation, if_neg hp, hs, if_pos h202]
    · simp only [generate_animation, if_neg hp, hs, if_neg h202]
  · intro svc base inp b i e hp hsub hid hpre hi ho
    have hreach := ga_poll_reach svc base inp b i hp hsub hid hpre hi
    have hstep := ga_loop_exn svc.poll base i (ga_max_attempts inp.quality - i) e
      (by omega) ho
    rw [hreach, hstep]

theorem c8_witness :
    generate_animation svcPollRaise "http://localhost:3000"
        ⟨"draw a graph", "neon", "low", true⟩ =
      ([.post "draw a graph", .query 0], (none, "", "Unexpected error: boom")) := by
  have h := c8_no_exception_propagation.2.2.2 svcPollRaise "http://localhost:3000"
    ⟨"draw a graph", "neon", "low", true⟩ { jobId := some "job-1" } 0 ⟨"boom", false⟩
    (by decide) rfl rfl (fun j h => absurd h (Nat.not_lt_zero j)) (by decide) rfl
  rw [h]
  decide

/-- C9: on every failure path the returned triple has video `none` and
empty code string (here: whenever the video component is `none`, the code
component is ""), and a non-`none` video component occurs only on the
completed path — it forces a reached poll attempt whose body was
completed, with the triple being that body's completed triple. -/
theorem c9_failure_triple_invariant (svc : Service) (base : String) (inp : GAInput) :
    ((generate_animation svc base inp).2.1 = none →
      (generate_animation svc base inp).2.2.1 = "") ∧
    (¬ (generate_animation svc base inp).2.1 = none →
      ∃ i r, i < ga_max_attempts inp.quality ∧
        (∀ j, j < i → pendingOk (svc.poll j) = true) ∧
        svc.poll i = .ok r ∧ r.status = some "completed" ∧
        (generate_animation svc base inp).2 = completedTriple base r) := by
  by_cases hp : py_strip inp.prompt = ""
  · constructor
    · intro _
      simp [generate_animation, hp]
    · intro hne
      exact absurd (by simp [generate_animation, hp]) hne
  · cases hsub : svc.submit with
    | exn e =>
      constructor
      · intro _
        simp [generate_animation, hp, hsub]
      · intro hne
        exact absurd (by simp [generate_animation, hp, hsub]) hne
    | resp code body =>
      by_cases h202 : code ≠ 202
      · cases body with
        | error e =>
          constructor
          · intro _
            simp [generate_animation, hp, hsub, if_pos h202]
          · intro hne
            exact absurd (by simp [generate_animation, hp, hsub, if_pos h202]) hne
        | ok b =>
          constructor
          · intro _
            simp [generate_animation, hp, hsub, if_pos h202]
          · intro hne
            exact absurd (by simp [generate_animation, hp, hsub, if_pos h202]) hne
      · have hceq : code = 202 := by omega
        subst hceq
        cases body with
        | error e =>
          constructor
          · intro _
            simp [generate_animation, hp, hsub, if_neg h202]
          · intro hne
            exact absurd (by simp [generate_animation, hp, hsub, if_neg h202]) hne
        | ok b =>
          by_cases hid : jobIdFalsy b.jobId = true
          · constructor
            · intro _
              simp [generate_animation, hp, hsub, if_neg h202, hid]
            · intro hne
              exact absurd (by simp [generate_animation, hp, hsub, if_neg h202, hid]) hne
          · have hidf : jobIdFalsy b.jobId = false := by
              simpa using hid
            have hun := ga_unfold_loop svc base inp b hp hsub hidf
            cases hrun : (ga_loop svc.poll base 0 (ga_max_attempts inp.quality)).2 with
            | error e =>
              rw [hrun] at hun
              constructor
              · intro _
                rw [hun]
              · intro hne
                rw [hun] at hne
                exact absurd rfl hne
            | ok t =>
              rw [hrun] at hun
              constructor
              · intro hnone
                rw [hun] at hnone
                rw [hun]
                exact ga_loop_ok_none svc.poll base (ga_max_attempts inp.quality) 0 t
                  hrun hnone
              · intro hne
                rw [hun] at hne
                obtain ⟨i, r, _, h2, hpre, hpoll, hst, hteq⟩ :=
                  ga_loop_ok_some svc.poll base (ga_max_attempts inp.quality) 0 t hrun hne
                refine ⟨i, r, by omega, fun j h => hpre j (Nat.zero_le j) h, hpoll, hst, ?_⟩
                rw [hun]
                exact hteq

theorem c9_witness :
    ∃ i r, i < ga_max_attempts "low" ∧
      (∀ j, j < i → pendingOk (exampleSvc.poll j) = true) ∧
      exampleSvc.poll i = .ok r ∧ r.status = some "completed" ∧
      (generate_animation exampleSvc "http://localhost:3000"
          ⟨"pythagorean theorem", "3blue1brown", "low", true⟩).2 =
        completedTriple "http://localhost:3000" r :=
  (c9_failure_triple_invariant exampleSvc "http://localhost:3000"
    ⟨"pythagorean theorem", "3blue1brown", "low", true⟩).2 (by decide)

/-- C10: a job that completes with a missing or empty `video_url` yields
the empty string as the returned video URL, and (for a non-empty base) not
the base-prefixed form — the qualification step applies only to non-empty
URLs. -/
theorem c10_empty_video_url (base : String) (r : JobResult) (inp : GAInput)
    (hp : ¬ py_strip inp.prompt = "") (hs : r.status = some "completed")
    (hu : r.video_url = none ∨ r.video_url = some "") :
    (generate_animation (svcCompleted r) base inp).2.1 = some "" ∧
    (¬ base = "" →
      ¬ (generate_animation (svcCompleted r) base inp).2.1 = some (base ++ "")) := by
  have hreach := ga_poll_reach (svcCompleted r) base inp { jobId := some "job-1" } 0 hp rfl
    rfl (fun j h => absurd h (Nat.not_lt_zero j)) (ga_max_attempts_pos inp.quality)
  have hstep := ga_loop_completed (svcCompleted r).poll base 0
    (ga_max_attempts inp.quality - 0) r (by have := ga_max_attempts_pos inp.quality; omega)
    rfl hs
  have h1 : (generate_animation (svcCompleted r) base inp).2.1 = some "" := by
    rw [hreach, hstep]
    rcases hu with hu | hu <;> simp [completedTriple, hu]
  refine ⟨h1, ?_⟩
  intro hb hcontr
  rw [h1] at hcontr
  have hbase : base ++ "" = base := by
    apply String.ext
    simp [String.data_append]
  apply hb
  injection hcontr with hcontr
  rw [hbase] at hcontr
  exact hcontr.symm

theorem c10_witness :
    (generate_animation (svcCompleted { status := some "completed", video_url := some "" })
        "http://localhost:3000" ⟨"animate a sine wave", "neon", "low", true⟩).2.1 =
      some "" ∧
    (¬ ("http://localhost:3000" : String) = "" →
      ¬ (generate_animation
          (svcCompleted { status := some "completed", video_url := some "" })
          "http://localhost:3000" ⟨"animate a sine wave", "neon", "low", true⟩).2.1 =
        some ("http://localhost:3000" ++ "")) :=
  c10_empty_video_url "http://localhost:3000"
    { status := some "completed", video_url := some "" }
    ⟨"animate a sine wave", "neon", "low", true⟩ (by decide) rfl (Or.inr rfl)

end ManimWeb
